import Mathlib

/-!
# Verification of the CUPB GPA calculator core

Shallow embedding of the grade-computation engine of the repository
(`src/utils/calculator.py`, `src/utils/config.py`, `src/utils/data_loader.py`,
`src/utils/persistence.py`).  Python floats are modelled by `ℚ`; Python
`float(...)` string parsing is modelled as an oracle attached to string values;
fallible operations return `Except`.
-/

namespace Gpa

/-- Python exceptions raised by the core.  `valueError` models Python's
`ValueError` (the spec's `ValidationError` / `FormatError`); `typeError`
models `TypeError`. -/
inductive GpaError where
  | valueError (msg : String)
  | typeError (msg : String)
deriving DecidableEq, Repr

instance {ε α : Type} [DecidableEq ε] [DecidableEq α] :
    DecidableEq (Except ε α) := fun a b =>
  match a, b with
  | .error e1, .error e2 =>
    if h : e1 = e2 then .isTrue (by rw [h]) else .isFalse (by simp [h])
  | .ok v1, .ok v2 =>
    if h : v1 = v2 then .isTrue (by rw [h]) else .isFalse (by simp [h])
  | .error _, .ok _ => .isFalse Except.noConfusion
  | .ok _, .error _ => .isFalse Except.noConfusion

/-- A raw spreadsheet/user value of Python type `Union[str, float, int]`.
`num q` is an `int` or `float` with value `q`; `str s p` is a string `s`
together with the result `p` of attempting Python `float(s)` on it
(`some q` when the string parses as the number `q`, `none` when `float`
raises).  The parse result is carried as data because Python's float
literal parser is an external primitive to this development. -/
inductive PyValue where
  | num (q : ℚ)
  | str (s : String) (p : Option ℚ)
deriving DecidableEq, Repr

/-- Python `float(v)` on a raw value: identity on numbers, the attached
parse oracle on strings (`none` = `ValueError` raised, caught by callers). -/
def pyFloat : PyValue → Option ℚ
  | .num q => some q
  | .str _ p => p

/-- `config.GRADE_MAPPING`: the five categorical grade labels and their
percentage equivalents. -/
def GRADE_MAPPING : List (String × ℚ) :=
  [("优秀", 95), ("良好", 85), ("中等", 75), ("及格", 65), ("不及格", 0)]

/-- `config.FAIL_GRADE_HANDLING["avg_score_value"]`: failing grades count
as 40 in the weighted average. -/
def FAIL_GRADE_HANDLING_avg_score_value : ℚ := 40

/-- Grade range clamp from `GpaCalculator.load_data` (lines 89-94): numeric
grades below 0 become 0, above 100 become 100 (each with a warning). -/
def clampGrade (q : ℚ) : ℚ :=
  if q < 0 then 0 else if q > 100 then 100 else q

/-- Grade normalization from `GpaCalculator.load_data` (lines 80-98): a
string that is a key of `GRADE_MAPPING` maps to its constant; otherwise
`float(...)` is attempted and the result clamped to `[0, 100]`; on
conversion failure the grade becomes 0 (with a warning, no exception). -/
def normalizeGrade (v : PyValue) : ℚ :=
  match v with
  | .str s _ =>
    match GRADE_MAPPING.lookup s with
    | some g => g
    | none =>
      match pyFloat v with
      | some q => clampGrade q
      | none => 0
  | .num q => clampGrade q

/-- Credit normalization from `GpaCalculator.load_data` (lines 60-69):
`float(...)` is attempted, negative values become 0, conversion failure
becomes 0 (each with a warning, no exception). -/
def normalizeCredit (v : PyValue) : ℚ :=
  match pyFloat v with
  | some q => if q < 0 then 0 else q
  | none => 0

/-- The `GpaCalculator` instance state: parallel course lists plus the
derived `course_count` and `total_credits` fields. -/
structure GpaState where
  course_names : List String
  course_grades : List ℚ
  course_credits : List ℚ
  course_count : ℕ
  total_credits : ℚ
deriving DecidableEq, Repr

/-- `GpaCalculator.load_data` (calculator.py lines 28-98).  The
`isinstance(..., list)` check (line 44) is unrepresentable here because the
embedding is typed; the remaining validation, credit conversion,
`total_credits` computation and grade conversion follow the source.  The
state is rebuilt wholesale, independent of any previous state. -/
def load_data (course_names : List String) (course_grades : List PyValue)
    (course_credits : List PyValue) : Except GpaError GpaState :=
  if ¬(course_names.length = course_grades.length ∧
      course_grades.length = course_credits.length) then
    .error (.valueError "课程名称、成绩和学分列表长度必须一致")
  else if course_names.length = 0 then
    .error (.valueError "课程数据不能为空")
  else
    let credits := course_credits.map normalizeCredit
    let total := credits.sum
    let grades := course_grades.map normalizeGrade
    .ok { course_names := course_names, course_grades := grades,
          course_credits := credits, course_count := course_names.length,
          total_credits := total }

/-- `GpaCalculator.calculate_average_score` (lines 100-134): guard on
`course_count == 0` and `total_credits == 0`, substitute 40 for failing
grades, then the credit-weighted sum over `zip` divided by `total_credits`. -/
def calculate_average_score (st : GpaState) : Except GpaError ℚ :=
  if st.course_count = 0 then
    .error (.valueError "没有课程数据，无法计算平均学分绩")
  else if st.total_credits = 0 then
    .error (.valueError "总学分为0，无法计算平均学分绩")
  else
    let adjusted := st.course_grades.map
      (fun g => if g < 60 then FAIL_GRADE_HANDLING_avg_score_value else g)
    let total_weighted_grade :=
      ((adjusted.zip st.course_credits).map (fun p => p.1 * p.2)).sum
    .ok (total_weighted_grade / st.total_credits)

/-- Python `int(q)`: truncation toward zero. -/
def pyInt (q : ℚ) : ℤ :=
  if q < 0 then ⌈q⌉ else ⌊q⌋

/-- Python round-half-to-even of a rational to an integer (the semantics of
builtin `round`, idealized over exact rationals). -/
def pyRoundInt (q : ℚ) : ℤ :=
  if q - ⌊q⌋ = 1 / 2 then
    (if ⌊q⌋ % 2 = 0 then ⌊q⌋ else ⌊q⌋ + 1)
  else
    ⌊q + 1 / 2⌋

/-- Python `round(q, 1)`: round half to even at one decimal place. -/
def pyRound1 (q : ℚ) : ℚ :=
  (pyRoundInt (q * 10) : ℚ) / 10

/-- The grade-point arithmetic of `calculate_course_gpa` (lines 163-165):
`m = int(grade) // 10` (Python floor division), `n = grade/10 - m`,
result `m + n - 5`. -/
def courseGpaRaw (grade : ℚ) : ℚ :=
  let m : ℤ := Int.fdiv (pyInt grade) 10
  let n : ℚ := grade / 10 - (m : ℚ)
  (m : ℚ) + n - 5

/-- One iteration of the `calculate_course_gpa` loop (lines 156-177):
failing grades get 0.0; otherwise the formula value, clamped to 0 from
below if negative, rounded to one decimal place. -/
def courseGpaPoint (grade : ℚ) : ℚ :=
  if grade < 60 then 0
  else
    let g := courseGpaRaw grade
    let g2 := if g < 0 then 0 else g
    pyRound1 g2

/-- Guard of the warning-and-clamp branch at calculator.py line 168: taken
iff the course is not failing and the computed grade point is negative. -/
def courseClampHit (grade : ℚ) : Bool :=
  if grade < 60 then false else decide (courseGpaRaw grade < 0)

/-- Guard of the warning branch at calculator.py line 171: taken iff the
course is not failing and the (clamp-adjusted) grade point exceeds 5.0. -/
def courseHighWarn (grade : ℚ) : Bool :=
  if grade < 60 then false
  else
    let g := courseGpaRaw grade
    let g2 := if g < 0 then 0 else g
    decide (g2 > 5)

/-- `GpaCalculator.calculate_course_gpa` (lines 136-179): guard on
`course_count == 0` only, then the per-course loop.  The per-course
`try/except` (line 175) is dead in exact arithmetic and not modelled. -/
def calculate_course_gpa (st : GpaState) : Except GpaError (List ℚ) :=
  if st.course_count = 0 then
    .error (.valueError "没有课程数据，无法计算课程绩点")
  else
    .ok (st.course_grades.map courseGpaPoint)

/-- The overall GPA before range adjustment (calculator.py lines 203-210):
credit-weighted sum of the per-course grade points over `zip`, divided by
`total_credits`.  Only meaningful when the guards of
`calculate_overall_gpa` pass. -/
def rawOverall (st : GpaState) : ℚ :=
  (((st.course_grades.map courseGpaPoint).zip st.course_credits).map
      (fun p => p.1 * p.2)).sum / st.total_credits

/-- Guard of the clamp branch at calculator.py line 213: taken iff the
guards passed and the raw overall GPA is negative. -/
def overallClampHit (st : GpaState) : Bool :=
  if st.course_count = 0 then false
  else if st.total_credits = 0 then false
  else decide (rawOverall st < 0)

/-- Guard of the warning branch at calculator.py line 216: taken iff the
guards passed and the raw overall GPA exceeds 5.0. -/
def overallHighWarn (st : GpaState) : Bool :=
  if st.course_count = 0 then false
  else if st.total_credits = 0 then false
  else decide (rawOverall st > 5)

/-- `GpaCalculator.calculate_overall_gpa` (lines 181-222): guards on
`course_count == 0` and `total_credits == 0`, per-course grade points,
credit-weighted mean, negative clamp, round to one decimal. -/
def calculate_overall_gpa (st : GpaState) : Except GpaError ℚ :=
  if st.course_count = 0 then
    .error (.valueError "没有课程数据，无法计算平均学分绩点")
  else if st.total_credits = 0 then
    .error (.valueError "总学分为0，无法计算平均学分绩点")
  else
    match calculate_course_gpa st with
    | .error e => .error e
    | .ok course_gpa_list =>
      let total_weighted_gpa :=
        ((course_gpa_list.zip st.course_credits).map (fun p => p.1 * p.2)).sum
      let overall := total_weighted_gpa / st.total_credits
      let overall2 := if overall < 0 then 0 else overall
      .ok (pyRound1 overall2)

/-- A spreadsheet cell as pandas sees it: `na` (NaN / missing), a string, or
a number.  Rows shorter than the sheet width are padded with `na`, as pandas
does. -/
inductive Cell where
  | na
  | str (s : String)
  | num (q : ℚ)
deriving DecidableEq, Repr

/-- Python `str.strip()`: drop leading and trailing whitespace. -/
def pyStrip (s : String) : String :=
  String.mk (((s.toList.dropWhile Char.isWhitespace).reverse.dropWhile
    Char.isWhitespace).reverse)

/-- The row-validity test of `DataLoader.load_from_excel` line 78:
`pd.notna(cell) and str(cell).strip()` on the name cell.  `str` of a Python
number is never empty or all-whitespace, so numeric cells always pass. -/
def cellValidName : Cell → Bool
  | .na => false
  | .str s => pyStrip s ≠ ""
  | .num _ => true

/-- `str(cell).strip()` used to extract the course name (line 98).  `str` of
NaN is `"nan"`; numeric cells stringify (their exact rendering is opaque to
every claim, so Lean's rational printer stands in for Python's). -/
def cellName : Cell → String
  | .na => "nan"
  | .str s => pyStrip s
  | .num q => toString q

/-- `EXCEL_CONFIG` (config.py lines 18-23). -/
def EXCEL_start_row : ℕ := 1

def EXCEL_course_name_col : ℕ := 1

def EXCEL_course_grade_col : ℕ := 2

def EXCEL_course_credit_col : ℕ := 3

/-- The cell of row `r` at column `c`, with pandas NaN padding. -/
def rowCell (r : List Cell) (c : ℕ) : Cell := r.getD c .na

/-- The raw cell converted to the `PyValue` that `load_data` later receives:
strings carry their `float(...)` parse oracle `oracle s`; NaN behaves as an
unparseable value (`float(nan)` is NaN, which compares false everywhere and
is out of scope — no claim feeds NaN grades onward). -/
def cellValue (oracle : String → Option ℚ) : Cell → PyValue
  | .na => .str "nan" none
  | .str s => .str s (oracle s)
  | .num q => .num q

/-- Number of columns of the sheet (pandas `df.shape[1]`; the frame is
rectangular, so the first row's width is the sheet's). -/
def ncols (df : List (List Cell)) : ℕ := (df.headD []).length

/-- The sheet-scanning part of `DataLoader.load_from_excel`
(data_loader.py lines 56-113), starting after the file existence and
extension checks: empty-frame check, column-count check, data-row-count
check, then the loop over rows `start_row ..` keeping exactly the rows whose
name cell passes `cellValidName`, in row order; error when no row survives;
otherwise `(count, names, grade cells, credit cells)`. -/
def load_from_excel (df : List (List Cell)) :
    Except GpaError (ℕ × List String × List Cell × List Cell) :=
  if df.length = 0 ∨ ncols df = 0 then
    .error (.valueError "Excel文件为空")
  else if ncols df < EXCEL_course_credit_col + 1 then
    .error (.valueError "Excel文件列数不足")
  else if df.length ≤ EXCEL_start_row then
    .error (.valueError "Excel文件中没有足够的数据行")
  else
    let valid_rows := (df.drop EXCEL_start_row).filter
      (fun r => cellValidName (rowCell r EXCEL_course_name_col))
    if valid_rows.length = 0 then
      .error (.valueError "未找到有效的课程数据")
    else
      .ok (valid_rows.length,
           valid_rows.map (fun r => cellName (rowCell r EXCEL_course_name_col)),
           valid_rows.map (fun r => rowCell r EXCEL_course_grade_col),
           valid_rows.map (fun r => rowCell r EXCEL_course_credit_col))

/-- A persisted `CalculationRecord` (spec §3): course data plus the two
computed metrics and a timestamp string. -/
structure CalculationRecord where
  course_names : List String
  course_grades : List ℚ
  course_credits : List ℚ
  course_count : ℕ
  avg_score : ℚ
  overall_gpa : ℚ
  timestamp : String
deriving DecidableEq, Repr

instance : Inhabited CalculationRecord :=
  ⟨⟨[], [], [], 0, 0, 0, ""⟩⟩

/-- `DataPersistence.delete_record` (persistence.py lines 210-250), as the
transformation it performs on the history list: empty history fails; an
index in `[0, len)` deletes that element (`del history[index]`, i.e. the
prefix before it followed by the suffix after it) and succeeds; any other
index fails and leaves the history unchanged. -/
def delete_record (history : List CalculationRecord) (index : ℤ) :
    Bool × List CalculationRecord :=
  if history.length = 0 then
    (false, history)
  else if 0 ≤ index ∧ index < (history.length : ℤ) then
    (true, history.take index.toNat ++ history.drop (index.toNat + 1))
  else
    (false, history)

/-! ## General lemmas about the embedded operations -/

theorem courseGpaRaw_eq (g : ℚ) : courseGpaRaw g = g / 10 - 5 := by
  unfold courseGpaRaw
  ring

theorem clampGrade_mem (q : ℚ) : 0 ≤ clampGrade q ∧ clampGrade q ≤ 100 := by
  unfold clampGrade
  split_ifs <;> constructor <;> linarith

theorem lookup_GRADE_MAPPING_mem {s : String} {g : ℚ}
    (h : GRADE_MAPPING.lookup s = some g) :
    g = 95 ∨ g = 85 ∨ g = 75 ∨ g = 65 ∨ g = 0 := by
  simp only [GRADE_MAPPING, List.lookup] at h
  repeat' split at h
  all_goals simp_all

theorem normalizeGrade_mem (v : PyValue) :
    0 ≤ normalizeGrade v ∧ normalizeGrade v ≤ 100 := by
  cases v with
  | num q => exact clampGrade_mem q
  | str s p =>
    rw [normalizeGrade]
    cases hl : GRADE_MAPPING.lookup s with
    | some g =>
      rcases lookup_GRADE_MAPPING_mem hl with h | h | h | h | h <;>
        subst h <;> norm_num
    | none =>
      cases p with
      | some q => simpa [pyFloat] using clampGrade_mem q
      | none => simp [pyFloat]

theorem normalizeCredit_nonneg (v : PyValue) : 0 ≤ normalizeCredit v := by
  rw [normalizeCredit]
  cases hv : pyFloat v with
  | some q =>
    dsimp only
    split_ifs <;> linarith
  | none => norm_num

/-- Success characterization of `load_data`: the resulting state is exactly
the normalized rebuild of the inputs. -/
theorem load_data_ok {ns : List String} {gs cs : List PyValue} {st : GpaState}
    (h : load_data ns gs cs = .ok st) :
    ns.length = gs.length ∧ gs.length = cs.length ∧ 0 < ns.length ∧
    st = { course_names := ns, course_grades := gs.map normalizeGrade,
           course_credits := cs.map normalizeCredit,
           course_count := ns.length,
           total_credits := (cs.map normalizeCredit).sum } := by
  unfold load_data at h
  split_ifs at h with h1 h2
  simp only [Except.ok.injEq] at h
  exact ⟨h1.1, h1.2, by omega, h.symm⟩

theorem pyRoundInt_nonneg {q : ℚ} (h : 0 ≤ q) : 0 ≤ pyRoundInt q := by
  unfold pyRoundInt
  have hf : (0 : ℤ) ≤ ⌊q⌋ := Int.floor_nonneg.mpr h
  split_ifs <;> [exact hf; omega; exact Int.floor_nonneg.mpr (by linarith)]

theorem pyRoundInt_le {q : ℚ} {B : ℤ} (h : q ≤ B) : pyRoundInt q ≤ B := by
  unfold pyRoundInt
  split_ifs with h1 h2
  · exact Int.floor_le_floor h |>.trans (by simp)
  · have hq : (⌊q⌋ : ℚ) = q - 1 / 2 := by linarith
    have : (⌊q⌋ : ℚ) < B := by
      rw [hq]
      linarith
    have : ⌊q⌋ < B := by exact_mod_cast this
    omega
  · have hlt : ⌊q + 1 / 2⌋ < B + 1 := Int.floor_lt.mpr (by push_cast; linarith)
    omega

theorem pyRound1_mem {v : ℚ} (h0 : 0 ≤ v) (h5 : v ≤ 5) :
    0 ≤ pyRound1 v ∧ pyRound1 v ≤ 5 := by
  unfold pyRound1
  constructor
  · have h := pyRoundInt_nonneg (q := v * 10) (by linarith)
    have : (0 : ℚ) ≤ (pyRoundInt (v * 10) : ℚ) := by exact_mod_cast h
    linarith
  · have h := pyRoundInt_le (q := v * 10) (B := 50) (by push_cast; linarith)
    have : (pyRoundInt (v * 10) : ℚ) ≤ 50 := by exact_mod_cast h
    linarith

theorem courseGpaPoint_of_ge {g : ℚ} (h : 60 ≤ g) :
    courseGpaPoint g = pyRound1 (g / 10 - 5) := by
  unfold courseGpaPoint
  rw [if_neg (by linarith)]
  simp only [courseGpaRaw_eq]
  rw [if_neg (by linarith)]

theorem courseGpaPoint_mem {g : ℚ} (h0 : 0 ≤ g) (h100 : g ≤ 100) :
    0 ≤ courseGpaPoint g ∧ courseGpaPoint g ≤ 5 := by
  by_cases hg : g < 60
  · unfold courseGpaPoint
    rw [if_pos hg]
    norm_num
  · push_neg at hg
    rw [courseGpaPoint_of_ge hg]
    exact pyRound1_mem (by linarith) (by linarith)

theorem zip_map_mul (l1 l2 : List ℚ) :
    (l1.zip l2).map (fun p => p.1 * p.2) = List.zipWith (fun a b => a * b) l1 l2 := by
  induction l1 generalizing l2 with
  | nil => simp
  | cons a t ih => cases l2 <;> simp [ih]

theorem zip_mul_sum_nonneg (l1 l2 : List ℚ) (h1 : ∀ x ∈ l1, 0 ≤ x)
    (h2 : ∀ c ∈ l2, 0 ≤ c) :
    0 ≤ ((l1.zip l2).map (fun p => p.1 * p.2)).sum := by
  induction l1 generalizing l2 with
  | nil => simp
  | cons a t ih =>
    cases l2 with
    | nil => simp
    | cons b t2 =>
      simp only [List.zip_cons_cons, List.map_cons, List.sum_cons]
      have hs := ih t2 (fun x hx => h1 x (List.mem_cons_of_mem _ hx))
        (fun c hc => h2 c (List.mem_cons_of_mem _ hc))
      have hab := mul_nonneg (h1 a (List.mem_cons_self _ _))
        (h2 b (List.mem_cons_self _ _))
      linarith

theorem zip_mul_sum_le (l1 l2 : List ℚ) (h1 : ∀ x ∈ l1, x ≤ 5)
    (h2 : ∀ c ∈ l2, 0 ≤ c) (hlen : l1.length = l2.length) :
    ((l1.zip l2).map (fun p => p.1 * p.2)).sum ≤ 5 * l2.sum := by
  induction l1 generalizing l2 with
  | nil =>
    cases l2 with
    | nil => simp
    | cons b t2 => simp at hlen
  | cons a t ih =>
    cases l2 with
    | nil => simp at hlen
    | cons b t2 =>
      simp only [List.zip_cons_cons, List.map_cons, List.sum_cons, List.sum_cons]
      have hs := ih t2 (fun x hx => h1 x (List.mem_cons_of_mem _ hx))
        (fun c hc => h2 c (List.mem_cons_of_mem _ hc)) (by simpa using hlen)
      have hab : a * b ≤ 5 * b := mul_le_mul_of_nonneg_right
        (h1 a (List.mem_cons_self _ _)) (h2 b (List.mem_cons_self _ _))
      linarith

/-! ## Claims -/

/-- C1 counterexample: a state reachable by `load_data` (one course with
grade 80 and credit 0, hence `total_credits = 0`) on which
`calculate_course_gpa` returns normally instead of failing, refuting the
claim that all three metric operations fail whenever `total_credits == 0`. -/
theorem claim_C1_cex :
    load_data ["A"] [.num 80] [.num 0] = .ok ⟨["A"], [80], [0], 1, 0⟩ ∧
    (⟨["A"], [80], [0], 1, 0⟩ : GpaState).total_credits = 0 ∧
    calculate_course_gpa ⟨["A"], [80], [0], 1, 0⟩ = .ok [3] := by
  refine ⟨?_, rfl, ?_⟩
  · simp [load_data, normalizeGrade, normalizeCredit, clampGrade, pyFloat,
      GRADE_MAPPING]
    norm_num
  · simp [calculate_course_gpa]
    norm_num [courseGpaPoint, courseGpaRaw, pyInt, pyRound1, pyRoundInt]

/-- C1 (amended): `calculate_average_score` and `calculate_overall_gpa`
fail with a `ValueError` exactly when no data is loaded or
`total_credits == 0`, and return normally otherwise; `calculate_course_gpa`
fails exactly when no data is loaded, returning normally even when
`total_credits == 0`. -/
theorem claim_C1 (st : GpaState) :
    ((st.course_count = 0 ∨ st.total_credits = 0) →
      ∃ m, calculate_average_score st = .error (.valueError m)) ∧
    (st.course_count ≠ 0 → st.total_credits ≠ 0 →
      ∃ q, calculate_average_score st = .ok q) ∧
    ((st.course_count = 0 ∨ st.total_credits = 0) →
      ∃ m, calculate_overall_gpa st = .error (.valueError m)) ∧
    (st.course_count ≠ 0 → st.total_credits ≠ 0 →
      ∃ q, calculate_overall_gpa st = .ok q) ∧
    (st.course_count = 0 →
      ∃ m, calculate_course_gpa st = .error (.valueError m)) ∧
    (st.course_count ≠ 0 → ∃ l, calculate_course_gpa st = .ok l) := by
  refine ⟨?_, ?_, ?_, ?_, ?_, ?_⟩
  · intro h
    unfold calculate_average_score
    rcases h with h | h
    · rw [if_pos h]
      exact ⟨_, rfl⟩
    · by_cases hc : st.course_count = 0
      · rw [if_pos hc]
        exact ⟨_, rfl⟩
      · rw [if_neg hc, if_pos h]
        exact ⟨_, rfl⟩
  · intro hc ht
    unfold calculate_average_score
    rw [if_neg hc, if_neg ht]
    exact ⟨_, rfl⟩
  · intro h
    unfold calculate_overall_gpa
    rcases h with h | h
    · rw [if_pos h]
      exact ⟨_, rfl⟩
    · by_cases hc : st.course_count = 0
      · rw [if_pos hc]
        exact ⟨_, rfl⟩
      · rw [if_neg hc, if_pos h]
        exact ⟨_, rfl⟩
  · intro hc ht
    unfold calculate_overall_gpa
    rw [if_neg hc, if_neg ht]
    unfold calculate_course_gpa
    rw [if_neg hc]
    exact ⟨_, rfl⟩
  · intro h
    unfold calculate_course_gpa
    rw [if_pos h]
    exact ⟨_, rfl⟩
  · intro h
    unfold calculate_course_gpa
    rw [if_neg h]
    exact ⟨_, rfl⟩

/-- C1 witness: the amended statement at the empty state and at the
loaded state with zero total credits. -/
theorem claim_C1_witness :
    (∃ m, calculate_average_score ⟨[], [], [], 0, 0⟩ =
      .error (.valueError m)) ∧
    (∃ l, calculate_course_gpa ⟨["A"], [80], [0], 1, 0⟩ = .ok l) :=
  ⟨(claim_C1 ⟨[], [], [], 0, 0⟩).1 (Or.inl rfl),
   (claim_C1 ⟨["A"], [80], [0], 1, 0⟩).2.2.2.2.2 (by norm_num)⟩

/-- C2 counterexample: at the decade boundary 70, at 65, and at the
off-grid point 69.95, the formula of `calculate_course_gpa` coincides with
the simple linear scale `g/10 - 5`; there is no half-point notch, refuting
the claim that the curve is non-uniform and differs from the linear scale. -/
theorem claim_C2_cex :
    courseGpaRaw 70 = 70 / 10 - 5 ∧
    courseGpaRaw 65 = 65 / 10 - 5 ∧
    courseGpaRaw (1399 / 20) = 1399 / 20 / 10 - 5 ∧
    courseGpaPoint 70 = pyRound1 (70 / 10 - 5) :=
  ⟨courseGpaRaw_eq 70, courseGpaRaw_eq 65, courseGpaRaw_eq (1399 / 20),
   courseGpaPoint_of_ge (by norm_num)⟩

/-- C2 (amended): for every normalized grade `g` with `60 ≤ g ≤ 100`, the
grade-point formula `floor(g/10) + (g/10 - floor(g/10)) - 5` applied by
`calculate_course_gpa` simplifies exactly to the simple linear scale
`g/10 - 5` (the floor terms cancel), and the returned grade point is that
linear value rounded to one decimal. -/
theorem claim_C2 (g : ℚ) (h1 : 60 ≤ g) (h2 : g ≤ 100) :
    courseGpaRaw g = g / 10 - 5 ∧
    courseGpaPoint g = pyRound1 (g / 10 - 5) :=
  ⟨courseGpaRaw_eq g, courseGpaPoint_of_ge h1⟩

/-- C2 witness: the amended statement at grade 95. -/
theorem claim_C2_witness :
    courseGpaRaw 95 = 95 / 10 - 5 ∧
    courseGpaPoint 95 = pyRound1 (95 / 10 - 5) :=
  claim_C2 95 (by norm_num) (by norm_num)

/-- C3 counterexample: on the loaded end-to-end example state,
`calculate_average_score` does not return 68.44. -/
theorem claim_C3_cex :
    calculate_average_score
        ⟨["Math", "PE", "English"], [95, 0, 72], [4, 2, 3], 3, 9⟩ ≠
      .ok (6844 / 100) := by
  simp [calculate_average_score, FAIL_GRADE_HANDLING_avg_score_value]
  norm_num

/-- C3 (amended): the end-to-end example loads to normalized grades
`[95, 0, 72]` with `total_credits = 9`, and `calculate_average_score`
returns `(95*4 + 40*2 + 72*3)/9 = 676/9 ≈ 75.11` (not 68.44). -/
theorem claim_C3 :
    load_data ["Math", "PE", "English"]
        [.num 95, .str "不及格" none, .num 72]
        [.num 4, .num 2, .num 3] =
      .ok ⟨["Math", "PE", "English"], [95, 0, 72], [4, 2, 3], 3, 9⟩ ∧
    calculate_average_score
        ⟨["Math", "PE", "English"], [95, 0, 72], [4, 2, 3], 3, 9⟩ =
      .ok ((95 * 4 + 40 * 2 + 72 * 3) / 9) ∧
    ((95 * 4 + 40 * 2 + 72 * 3 : ℚ) / 9) = 676 / 9 := by
  refine ⟨?_, ?_, by norm_num⟩
  · simp [load_data, normalizeGrade, normalizeCredit, clampGrade, pyFloat,
      GRADE_MAPPING, List.lookup]
    norm_num
  · simp [calculate_average_score, FAIL_GRADE_HANDLING_avg_score_value]
    norm_num

/-- C4: on every state produced by `load_data`, `calculate_course_gpa`
returns, per course, 0.0 for a failing normalized grade and otherwise the
value `floor(g/10) + (g/10 - floor(g/10)) - 5` rounded to one decimal
place; the boundary grades 60, 100 and 59.9 yield 1.0, 5.0 and 0.0. -/
theorem claim_C4 (ns : List String) (gs cs : List PyValue) (st : GpaState)
    (h : load_data ns gs cs = .ok st) :
    calculate_course_gpa st = .ok (st.course_grades.map (fun g =>
      if g < 60 then 0
      else pyRound1 ((⌊g / 10⌋ : ℚ) + (g / 10 - (⌊g / 10⌋ : ℚ)) - 5))) ∧
    courseGpaPoint 60 = 1 ∧ courseGpaPoint 100 = 5 ∧
    courseGpaPoint (599 / 10) = 0 := by
  obtain ⟨h1, h2, h3, hst⟩ := load_data_ok h
  refine ⟨?_, ?_, ?_, ?_⟩
  · have hcount : st.course_count ≠ 0 := by
      rw [hst]
      show ns.length ≠ 0
      omega
    unfold calculate_course_gpa
    rw [if_neg hcount]
    congr 1
    refine List.map_congr_left (fun g _ => ?_)
    by_cases hg : g < 60
    · simp [courseGpaPoint, hg]
    · push_neg at hg
      rw [courseGpaPoint_of_ge hg, if_neg (by linarith)]
      congr 1
      ring
  · rw [courseGpaPoint_of_ge (by norm_num)]
    norm_num [pyRound1, pyRoundInt]
  · rw [courseGpaPoint_of_ge (by norm_num)]
    norm_num [pyRound1, pyRoundInt]
  · unfold courseGpaPoint
    norm_num

/-- C4 witness: the statement at the load of a single 80-grade course. -/
theorem claim_C4_witness :
    load_data ["A"] [.num 80] [.num 2] = .ok ⟨["A"], [80], [2], 1, 2⟩ ∧
    (calculate_course_gpa ⟨["A"], [80], [2], 1, 2⟩ =
      .ok ((⟨["A"], [80], [2], 1, 2⟩ : GpaState).course_grades.map (fun g =>
        if g < 60 then 0
        else pyRound1 ((⌊g / 10⌋ : ℚ) + (g / 10 - (⌊g / 10⌋ : ℚ)) - 5))) ∧
     courseGpaPoint 60 = 1 ∧ courseGpaPoint 100 = 5 ∧
     courseGpaPoint (599 / 10) = 0) := by
  have hload : load_data ["A"] [.num 80] [.num 2] =
      .ok ⟨["A"], [80], [2], 1, 2⟩ := by
    simp [load_data, normalizeGrade, normalizeCredit, clampGrade, pyFloat,
      GRADE_MAPPING]
    norm_num
  exact ⟨hload, claim_C4 _ _ _ _ hload⟩

/-- C5: on every state produced by `load_data` with positive total credits,
`calculate_average_score` returns the credit-weighted sum of the adjusted
grades (40 for failing, the grade itself otherwise) divided by
`total_credits`. -/
theorem claim_C5 (ns : List String) (gs cs : List PyValue) (st : GpaState)
    (h : load_data ns gs cs = .ok st) (hpos : 0 < st.total_credits) :
    calculate_average_score st = .ok
      ((List.zipWith (fun g c => (if g < 60 then (40 : ℚ) else g) * c)
          st.course_grades st.course_credits).sum / st.total_credits) := by
  obtain ⟨h1, h2, h3, hst⟩ := load_data_ok h
  have hcount : st.course_count ≠ 0 := by
    rw [hst]
    show ns.length ≠ 0
    omega
  unfold calculate_average_score
  rw [if_neg hcount, if_neg (ne_of_gt hpos)]
  show Except.ok
      ((((st.course_grades.map
            (fun g => if g < 60 then FAIL_GRADE_HANDLING_avg_score_value
                      else g)).zip
          st.course_credits).map (fun p => p.1 * p.2)).sum /
        st.total_credits) = _
  rw [zip_map_mul, List.zipWith_map_left]
  rfl

/-- C5 witness: the statement at the load of one passing and one failing
course. -/
theorem claim_C5_witness :
    load_data ["A", "B"] [.num 80, .num 30] [.num 2, .num 3] =
      .ok ⟨["A", "B"], [80, 30], [2, 3], 2, 5⟩ ∧
    0 < (⟨["A", "B"], [80, 30], [2, 3], 2, 5⟩ : GpaState).total_credits ∧
    calculate_average_score ⟨["A", "B"], [80, 30], [2, 3], 2, 5⟩ = .ok
      ((List.zipWith (fun g c => (if g < 60 then (40 : ℚ) else g) * c)
          [80, 30] [2, 3]).sum / 5) := by
  have hload : load_data ["A", "B"] [.num 80, .num 30] [.num 2, .num 3] =
      .ok ⟨["A", "B"], [80, 30], [2, 3], 2, 5⟩ := by
    simp [load_data, normalizeGrade, normalizeCredit, clampGrade, pyFloat,
      GRADE_MAPPING]
    norm_num
  exact ⟨hload, by norm_num, claim_C5 _ _ _ _ hload (by norm_num)⟩

/-- C6: grade normalization always lands in `[0, 100]`; the five labels map
to 95, 85, 75, 65, 0 regardless of the parse oracle; numeric values and
numeric strings normalize to their numeric value clamped to `[0, 100]`;
unrecognized non-numeric strings become 0; and the function is total, so no
error is ever raised. -/
theorem claim_C6 (v : PyValue) (p : Option ℚ) (s : String) (q : ℚ) :
    (0 ≤ normalizeGrade v ∧ normalizeGrade v ≤ 100) ∧
    normalizeGrade (.str "优秀" p) = 95 ∧
    normalizeGrade (.str "良好" p) = 85 ∧
    normalizeGrade (.str "中等" p) = 75 ∧
    normalizeGrade (.str "及格" p) = 65 ∧
    normalizeGrade (.str "不及格" p) = 0 ∧
    normalizeGrade (.num q) = clampGrade q ∧
    (GRADE_MAPPING.lookup s = none →
      normalizeGrade (.str s (some q)) = clampGrade q) ∧
    (GRADE_MAPPING.lookup s = none → normalizeGrade (.str s none) = 0) ∧
    0 ≤ clampGrade q ∧ clampGrade q ≤ 100 := by
  refine ⟨normalizeGrade_mem v, ?_, ?_, ?_, ?_, ?_, rfl, ?_, ?_,
    (clampGrade_mem q).1, (clampGrade_mem q).2⟩
  · simp [normalizeGrade, GRADE_MAPPING, List.lookup]
  · simp [normalizeGrade, GRADE_MAPPING, List.lookup]
  · simp [normalizeGrade, GRADE_MAPPING, List.lookup]
  · simp [normalizeGrade, GRADE_MAPPING, List.lookup]
  · simp [normalizeGrade, GRADE_MAPPING, List.lookup]
  · intro hs
    simp [normalizeGrade, hs, pyFloat]
  · intro hs
    simp [normalizeGrade, hs, pyFloat]

/-- C6 witness: the statement at the unrecognized string "abc" with parse
oracle 150, whose normalization clamps to 100. -/
theorem claim_C6_witness :
    GRADE_MAPPING.lookup "abc" = none ∧
    normalizeGrade (.str "abc" (some 150)) = clampGrade 150 ∧
    normalizeGrade (.str "abc" none) = 0 := by
  have hs : GRADE_MAPPING.lookup "abc" = none := by
    simp [GRADE_MAPPING, List.lookup]
  exact ⟨hs, (claim_C6 (.num 0) none "abc" 150).2.2.2.2.2.2.2.1 hs,
    (claim_C6 (.num 0) none "abc" 150).2.2.2.2.2.2.2.2.1 hs⟩

/-- C7: after every successful `load_data`, the three parallel lists have
equal lengths, `course_count` equals that common positive length, every
stored credit is nonnegative, and `total_credits` is the sum of the credits
stored by this very load. -/
theorem claim_C7 (ns : List String) (gs cs : List PyValue) (st : GpaState)
    (h : load_data ns gs cs = .ok st) :
    st.course_names.length = st.course_grades.length ∧
    st.course_grades.length = st.course_credits.length ∧
    st.course_count = st.course_names.length ∧
    0 < st.course_count ∧
    (∀ c ∈ st.course_credits, 0 ≤ c) ∧
    st.total_credits = st.course_credits.sum := by
  obtain ⟨h1, h2, h3, hst⟩ := load_data_ok h
  subst hst
  refine ⟨by simpa using h1, by simpa using h2, rfl, by simpa using h3,
    ?_, rfl⟩
  intro c hc
  simp only [List.mem_map] at hc
  obtain ⟨v, _, rfl⟩ := hc
  exact normalizeCredit_nonneg v

/-- C7 witness: the statement at a two-course load. -/
theorem claim_C7_witness :
    load_data ["A", "B"] [.num 80, .num 30] [.num 2, .num 3] =
      .ok ⟨["A", "B"], [80, 30], [2, 3], 2, 5⟩ ∧
    ((⟨["A", "B"], [80, 30], [2, 3], 2, 5⟩ : GpaState).total_credits =
      (⟨["A", "B"], [80, 30], [2, 3], 2, 5⟩ : GpaState).course_credits.sum ∧
     0 < (⟨["A", "B"], [80, 30], [2, 3], 2, 5⟩ : GpaState).course_count) := by
  have hload : load_data ["A", "B"] [.num 80, .num 30] [.num 2, .num 3] =
      .ok ⟨["A", "B"], [80, 30], [2, 3], 2, 5⟩ := by
    simp [load_data, normalizeGrade, normalizeCredit, clampGrade, pyFloat,
      GRADE_MAPPING]
    norm_num
  have h := claim_C7 _ _ _ _ hload
  exact ⟨hload, h.2.2.2.2.2, h.2.2.2.1⟩

/-- C8: when the structural checks pass, the loader fails with
`FormatError` ("no valid course data") exactly when no data row has a
non-blank name cell; on success the row count is the number of valid rows
and the output sequences are the per-column projections of the valid rows
in row order; rows with a blank name are not counted and do not appear. -/
theorem claim_C8 (df : List (List Cell))
    (h1 : ¬(df.length = 0 ∨ ncols df = 0))
    (h2 : ¬(ncols df < EXCEL_course_credit_col + 1))
    (h3 : ¬(df.length ≤ EXCEL_start_row)) :
    (load_from_excel df = .error (.valueError "未找到有效的课程数据") ↔
      (df.drop EXCEL_start_row).filter
        (fun r => cellValidName (rowCell r EXCEL_course_name_col)) = []) ∧
    (∀ k names grades credits,
      load_from_excel df = .ok (k, names, grades, credits) →
      k = (df.drop EXCEL_start_row).countP
            (fun r => cellValidName (rowCell r EXCEL_course_name_col)) ∧
      names = ((df.drop EXCEL_start_row).filter
            (fun r => cellValidName (rowCell r EXCEL_course_name_col))).map
            (fun r => cellName (rowCell r EXCEL_course_name_col)) ∧
      grades = ((df.drop EXCEL_start_row).filter
            (fun r => cellValidName (rowCell r EXCEL_course_name_col))).map
            (fun r => rowCell r EXCEL_course_grade_col) ∧
      credits = ((df.drop EXCEL_start_row).filter
            (fun r => cellValidName (rowCell r EXCEL_course_name_col))).map
            (fun r => rowCell r EXCEL_course_credit_col) ∧
      ∀ r ∈ df.drop EXCEL_start_row,
        cellValidName (rowCell r EXCEL_course_name_col) = false →
        r ∉ (df.drop EXCEL_start_row).filter
              (fun r => cellValidName (rowCell r EXCEL_course_name_col))) := by
  unfold load_from_excel
  rw [if_neg h1, if_neg h2, if_neg h3]
  constructor
  · by_cases he : ((df.drop EXCEL_start_row).filter
        (fun r => cellValidName (rowCell r EXCEL_course_name_col))).length = 0
    · rw [if_pos he]
      simp [List.length_eq_zero.mp he]
    · rw [if_neg he]
      constructor
      · intro hc
        exact Except.noConfusion hc
      · intro hc
        rw [hc] at he
        simp at he
  · intro k names grades credits hok
    by_cases he : ((df.drop EXCEL_start_row).filter
        (fun r => cellValidName (rowCell r EXCEL_course_name_col))).length = 0
    · rw [if_pos he] at hok
      exact Except.noConfusion hok
    · rw [if_neg he] at hok
      simp only [Except.ok.injEq, Prod.mk.injEq] at hok
      obtain ⟨hk, hns, hgs, hcs⟩ := hok
      refine ⟨by rw [← hk, List.countP_eq_length_filter], hns.symm, hgs.symm,
        hcs.symm, ?_⟩
      intro r _ hval hmem
      have htrue := List.of_mem_filter hmem
      rw [hval] at htrue
      exact Bool.noConfusion htrue

/-- C8 witness: a three-row sheet (header, one valid row, one row whose
name cell is blank after trimming) loads exactly the valid row. -/
theorem claim_C8_witness :
    let df := [[Cell.str "id", Cell.str "name", Cell.str "g", Cell.str "c"],
               [Cell.num 1, Cell.str " Math ", Cell.num 95, Cell.num 4],
               [Cell.num 2, Cell.str "  ", Cell.num 50, Cell.num 2]]
    load_from_excel df = .ok (1, ["Math"], [Cell.num 95], [Cell.num 4]) ∧
    (load_from_excel df = .error (.valueError "未找到有效的课程数据") ↔
      (df.drop EXCEL_start_row).filter
        (fun r => cellValidName (rowCell r EXCEL_course_name_col)) = []) := by
  intro df
  have hok : load_from_excel df = .ok (1, ["Math"], [Cell.num 95],
      [Cell.num 4]) := by
    decide
  refine ⟨hok, (claim_C8 df (by simp [df, ncols]) (by simp [df, ncols,
    EXCEL_course_credit_col]) (by simp [df, EXCEL_start_row])).1⟩

/-- C9: deleting history index `k` with `0 ≤ k < length` succeeds, removes
exactly the record at position `k` (earlier records keep their index, later
records shift down by one), and shortens the log by one; any out-of-range
index fails and leaves the log unchanged. -/
theorem claim_C9 (h : List CalculationRecord) (k : ℤ) :
    (0 ≤ k → k < (h.length : ℤ) →
      (delete_record h k).1 = true ∧
      (delete_record h k).2.length = h.length - 1 ∧
      (∀ i : ℕ, (i : ℤ) < k → (delete_record h k).2[i]? = h[i]?) ∧
      (∀ i : ℕ, k ≤ (i : ℤ) → (delete_record h k).2[i]? = h[i + 1]?)) ∧
    (¬(0 ≤ k ∧ k < (h.length : ℤ)) → delete_record h k = (false, h)) := by
  constructor
  · intro hk0 hkl
    have hne : ¬h.length = 0 := by omega
    have hklt : k.toNat < h.length := by omega
    unfold delete_record
    rw [if_neg hne, if_pos ⟨hk0, hkl⟩]
    refine ⟨rfl, ?_, ?_, ?_⟩
    · simp only [List.length_append, List.length_take, List.length_drop]
      omega
    · intro i hik
      have hlt : i < (List.take k.toNat h).length := by
        simp only [List.length_take]
        omega
      dsimp only
      rw [List.getElem?_append, if_pos hlt, List.getElem?_take,
        if_pos (by omega)]
    · intro i hki
      have hge : ¬i < (List.take k.toNat h).length := by
        simp only [List.length_take]
        omega
      dsimp only
      rw [List.getElem?_append, if_neg hge, List.getElem?_drop]
      congr 1
      simp only [List.length_take]
      omega
  · intro hk
    unfold delete_record
    by_cases hne : h.length = 0
    · rw [if_pos hne]
    · rw [if_neg hne, if_neg hk]

/-- C9 witness: the statement on a concrete two-record log at the in-range
index 0 and the out-of-range index 5. -/
theorem claim_C9_witness :
    ((delete_record [⟨["a"], [90], [2], 1, 90, 4, "t1"⟩,
        ⟨["b"], [70], [3], 1, 70, 2, "t2"⟩] 0).1 = true ∧
     (delete_record [⟨["a"], [90], [2], 1, 90, 4, "t1"⟩,
        ⟨["b"], [70], [3], 1, 70, 2, "t2"⟩] 0).2.length = 1) ∧
    delete_record [⟨["a"], [90], [2], 1, 90, 4, "t1"⟩,
        ⟨["b"], [70], [3], 1, 70, 2, "t2"⟩] 5 =
      (false, [⟨["a"], [90], [2], 1, 90, 4, "t1"⟩,
        ⟨["b"], [70], [3], 1, 70, 2, "t2"⟩]) := by
  have h1 := (claim_C9 [⟨["a"], [90], [2], 1, 90, 4, "t1"⟩,
    ⟨["b"], [70], [3], 1, 70, 2, "t2"⟩] 0).1 (by norm_num) (by norm_num)
  have h2 := (claim_C9 [⟨["a"], [90], [2], 1, 90, 4, "t1"⟩,
    ⟨["b"], [70], [3], 1, 70, 2, "t2"⟩] 5).2 (by norm_num)
  exact ⟨⟨h1.1, h1.2.1⟩, h2⟩

/-- C10: on every state produced by `load_data` (so with all normalized
grades in `[0, 100]` and credits nonnegative), every per-course grade point
lies in `[0, 5]`, every overall GPA lies in `[0, 5]`, and the negative
clamp and above-5 warning branches of both functions are unreachable. -/
theorem claim_C10 (ns : List String) (gs cs : List PyValue) (st : GpaState)
    (h : load_data ns gs cs = .ok st) :
    (∀ l, calculate_course_gpa st = .ok l → ∀ x ∈ l, 0 ≤ x ∧ x ≤ 5) ∧
    (∀ q, calculate_overall_gpa st = .ok q → 0 ≤ q ∧ q ≤ 5) ∧
    (∀ g ∈ st.course_grades,
      courseClampHit g = false ∧ courseHighWarn g = false) ∧
    overallClampHit st = false ∧
    overallHighWarn st = false := by
  obtain ⟨h1, h2, h3, hst⟩ := load_data_ok h
  have hcount : st.course_count ≠ 0 := by
    rw [hst]
    show ns.length ≠ 0
    omega
  have hgr : ∀ g ∈ st.course_grades, 0 ≤ g ∧ g ≤ 100 := by
    rw [hst]
    intro g hg
    simp only [List.mem_map] at hg
    obtain ⟨v, _, rfl⟩ := hg
    exact normalizeGrade_mem v
  have hcr : ∀ c ∈ st.course_credits, 0 ≤ c := by
    rw [hst]
    intro c hc
    simp only [List.mem_map] at hc
    obtain ⟨v, _, rfl⟩ := hc
    exact normalizeCredit_nonneg v
  have hlen : (st.course_grades.map courseGpaPoint).length =
      st.course_credits.length := by
    rw [hst]
    simp only [List.length_map]
    omega
  have hgpa : ∀ x ∈ st.course_grades.map courseGpaPoint, 0 ≤ x ∧ x ≤ 5 := by
    intro x hx
    simp only [List.mem_map] at hx
    obtain ⟨g, hg, rfl⟩ := hx
    exact courseGpaPoint_mem (hgr g hg).1 (hgr g hg).2
  have htot : st.total_credits = st.course_credits.sum := by
    rw [hst]
  have htot_nonneg : 0 ≤ st.total_credits := by
    rw [htot]
    exact List.sum_nonneg hcr
  have hS := zip_mul_sum_nonneg (st.course_grades.map courseGpaPoint)
    st.course_credits (fun x hx => (hgpa x hx).1) hcr
  have hS5 := zip_mul_sum_le (st.course_grades.map courseGpaPoint)
    st.course_credits (fun x hx => (hgpa x hx).2) hcr hlen
  have hraw : st.total_credits ≠ 0 →
      0 ≤ rawOverall st ∧ rawOverall st ≤ 5 := by
    intro ht
    have hpos : 0 < st.total_credits := lt_of_le_of_ne htot_nonneg (Ne.symm ht)
    unfold rawOverall
    constructor
    · exact div_nonneg hS htot_nonneg
    · rw [div_le_iff hpos]
      rw [htot] at hpos ⊢
      linarith
  refine ⟨?_, ?_, ?_, ?_, ?_⟩
  · intro l hl
    unfold calculate_course_gpa at hl
    split_ifs at hl
    simp only [Except.ok.injEq] at hl
    rw [← hl]
    exact hgpa
  · intro q hq
    unfold calculate_overall_gpa at hq
    split_ifs at hq with hc ht
    unfold calculate_course_gpa at hq
    rw [if_neg hc] at hq
    simp only [Except.ok.injEq] at hq
    obtain ⟨hr0, hr5⟩ := hraw ht
    have hfold : (List.map (fun p => p.1 * p.2)
          ((List.map courseGpaPoint st.course_grades).zip
            st.course_credits)).sum / st.total_credits = rawOverall st := rfl
    rw [hfold] at hq
    have hneg : ¬rawOverall st < 0 := not_lt.mpr hr0
    rw [if_neg hneg] at hq
    rw [← hq]
    exact pyRound1_mem hr0 hr5
  · intro g hg
    obtain ⟨hg0, hg100⟩ := hgr g hg
    constructor
    · unfold courseClampHit
      by_cases hfail : g < 60
      · rw [if_pos hfail]
      · rw [if_neg hfail]
        push_neg at hfail
        simp only [courseGpaRaw_eq, decide_eq_false_iff_not, not_lt]
        linarith
    · unfold courseHighWarn
      by_cases hfail : g < 60
      · rw [if_pos hfail]
      · rw [if_neg hfail]
        push_neg at hfail
        simp only [courseGpaRaw_eq, decide_eq_false_iff_not, not_lt]
        rw [if_neg (by linarith : ¬(g / 10 - 5 : ℚ) < 0)]
        linarith
  · unfold overallClampHit
    rw [if_neg hcount]
    by_cases ht : st.total_credits = 0
    · rw [if_pos ht]
    · rw [if_neg ht]
      simp only [decide_eq_false_iff_not, not_lt]
      exact (hraw ht).1
  · unfold overallHighWarn
    rw [if_neg hcount]
    by_cases ht : st.total_credits = 0
    · rw [if_pos ht]
    · rw [if_neg ht]
      simp only [gt_iff_lt, decide_eq_false_iff_not, not_lt]
      exact (hraw ht).2

/-- C10 witness: the statement at a one-course load with grade 95 and
credit 3. -/
theorem claim_C10_witness :
    load_data ["A"] [.num 95] [.num 3] = .ok ⟨["A"], [95], [3], 1, 3⟩ ∧
    overallClampHit ⟨["A"], [95], [3], 1, 3⟩ = false ∧
    overallHighWarn ⟨["A"], [95], [3], 1, 3⟩ = false ∧
    (∀ q, calculate_overall_gpa ⟨["A"], [95], [3], 1, 3⟩ = .ok q →
      0 ≤ q ∧ q ≤ 5) := by
  have hload : load_data ["A"] [.num 95] [.num 3] =
      .ok ⟨["A"], [95], [3], 1, 3⟩ := by
    simp [load_data, normalizeGrade, normalizeCredit, clampGrade, pyFloat,
      GRADE_MAPPING]
    norm_num
  have hmain := claim_C10 _ _ _ _ hload
  exact ⟨hload, hmain.2.2.2.1, hmain.2.2.2.2, hmain.2.1⟩

end Gpa
